import Mathlib

/-!
Shallow embedding of the `oidn-rs` Rust binding (Twinklebear/oidn-rs) for the
Open Image Denoise native engine.

The native engine itself is an external black box reachable through a C FFI.
We model its observable interaction surface explicitly:
* native handles are integers (`0` models a null handle);
* the outcome of a fallible native allocation (`oidnNewBuffer` /
  `oidnNewDevice` returning null) is threaded in as an explicit `Bool` / `Int`
  environment parameter, since it is decided by the engine, not by this code;
* every call into the native engine made by a filter-execution path is
  recorded in an explicit trace (`List NativeCall`), so that "no native
  commit/execute happened" is a statement about the trace;
* Rust panics (`unwrap` / `expect` on a failed conversion or allocation) are
  modelled as `Option.none` results;
* buffer contents are modelled as a `List α` over an abstract element type,
  since the binding only ever copies pixel data and never computes with it.

Definitions follow `src/lib.rs`, `src/device.rs`, `src/buffer.rs` and
`src/filter.rs`, keeping the source's names and control-flow order.
-/

/-- The `Error` enum of `lib.rs`.  `repr(u32)` with the native OIDN error
codes 0–6 for the first seven variants; `InvalidImageDimensions` carries the
implicit next discriminant, 7. -/
inductive Error where
  | none_
  | unknown
  | invalidArgument
  | invalidOperation
  | outOfMemory
  | unsupportedFormat
  | canceled
  | invalidImageDimensions
deriving DecidableEq, Repr

/-- The `u32` discriminant of each `Error` variant (`err as u32`). -/
def Error.toU32 : Error → Nat
  | .none_ => 0
  | .unknown => 1
  | .invalidArgument => 2
  | .invalidOperation => 3
  | .outOfMemory => 4
  | .unsupportedFormat => 5
  | .canceled => 6
  | .invalidImageDimensions => 7

/-- `TryFromPrimitive` for `Error`: succeeds exactly on the discriminant
values of the enum's variants. -/
def Error.tryFromU32 (code : Nat) : Option Error :=
  if code = 0 then some .none_
  else if code = 1 then some .unknown
  else if code = 2 then some .invalidArgument
  else if code = 3 then some .invalidOperation
  else if code = 4 then some .outOfMemory
  else if code = 5 then some .unsupportedFormat
  else if code = 6 then some .canceled
  else if code = 7 then some .invalidImageDimensions
  else none

/-- A `Device` (`device.rs`): the native device handle (an opaque pointer,
modelled as an `Int`, `0` = null) together with whether `oidnCommitDevice`
has been applied to it.  The `Arc<u8>` identity token of the Rust struct is
subsumed by the handle: both serve only as an identity for same-device
checks. -/
structure Device where
  handle : Int
  committed : Bool
deriving DecidableEq, Repr

/-- `Device::new` — `oidnNewDevice(DEFAULT)` returns `h`; the device is
committed unconditionally before being returned. -/
def Device.new (h : Int) : Device := { handle := h, committed := true }

/-- `Device::cpu` — same shape as `Device::new` with the CPU device type. -/
def Device.cpu (h : Int) : Device := { handle := h, committed := true }

/-- `Device::cuda` — `oidnNewDevice(CUDA)` returns `h`; a null handle yields
`None`, otherwise the device is committed and returned. -/
def Device.cuda (h : Int) : Option Device :=
  if h = 0 then none else some { handle := h, committed := true }

/-- `Device::sycl` — identical shape to `Device::cuda`. -/
def Device.sycl (h : Int) : Option Device :=
  if h = 0 then none else some { handle := h, committed := true }

/-- `Device::hip` — identical shape to `Device::cuda`. -/
def Device.hip (h : Int) : Option Device :=
  if h = 0 then none else some { handle := h, committed := true }

/-- `Device::metal` — identical shape to `Device::cuda`. -/
def Device.metal (h : Int) : Option Device :=
  if h = 0 then none else some { handle := h, committed := true }

/-- `Device::get_error` (`device.rs` lines 90–99).  `code` is the `u32` error
code reported by `oidnGetDeviceError` and `msg` the accompanying message.
Code `0` (`OIDN_ERROR_NONE`) yields `Ok(())`; otherwise the code is converted
with `(err as u32).try_into().unwrap()` — a failed conversion panics, which we
model as `Option.none`. -/
def Device.get_error (code : Nat) (msg : String) :
    Option (Except (Error × String) Unit) :=
  if code = 0 then
    some (.ok ())
  else
    match Error.tryFromU32 code with
    | some e => some (.error (e, msg))
    | none => none

/-- A `Buffer` (`buffer.rs`): native buffer handle contents, the logical
float element count fixed at creation, and the owning device's identity
(`buffer.id` in `filter.rs`, compared against `device.0 as isize`). -/
structure Buffer (α : Type) where
  size : Nat
  id : Int
  contents : List α
deriving DecidableEq, Repr

/-- `Device::create_buffer` — allocates a native buffer sized to the slice
and copies the slice in.  `ok` models whether `oidnNewBuffer` returned a
non-null handle; a null handle yields `None`. -/
def Device.create_buffer {α : Type} (d : Device) (ok : Bool) (contents : List α) :
    Option (Buffer α) :=
  if ok then some { size := contents.length, id := d.handle, contents := contents } else none

/-- `Buffer::write` — returns `None` if the slice length differs from the
buffer's size, otherwise overwrites the full contents. -/
def Buffer.write {α : Type} (b : Buffer α) (contents : List α) : Option (Buffer α) :=
  if b.size ≠ contents.length then none
  else some { b with contents := contents }

/-- `Buffer::read` — allocates a fresh vector of `self.size` elements and
copies the native contents into it.  Creation and every successful write keep
`contents.length = size`, under which the copied-out vector is exactly the
stored contents. -/
def Buffer.read {α : Type} (b : Buffer α) : List α := b.contents

/-- `Buffer::read_to_slice` — fails if the output slice length differs from
the buffer's size; otherwise copies the contents into it (returning the
post-call contents of the output slice). -/
def Buffer.read_to_slice {α : Type} (b : Buffer α) (out : List α) : Option (List α) :=
  if b.size ≠ out.length then none else some b.contents

/-- One call into the native engine, as made by the execution paths of
`filter.rs` (image/parameter staging on the native filter, buffer
creation/IO, commit, execute). -/
inductive NativeCall where
  | newBuffer
  | writeBuffer
  | readBuffer
  | setFilterImage (name : String)
  | setFilterBool (name : String)
  | setFilterFloat (name : String)
  | setFilterInt (name : String)
  | commitFilter
  | executeFilter
deriving DecidableEq, Repr

/-- The `RayTracing` filter state (`filter.rs` lines 7–18).  The native
filter handle plays no role in the pure state evolution and is omitted; the
owning device is held by (immutable) reference. -/
structure RayTracing (α : Type) where
  device : Device
  albedo : Option (Buffer α)
  normal : Option (Buffer α)
  hdr : Bool
  input_scale : Float
  srgb : Bool
  clean_aux : Bool
  img_dims : Nat × Nat × Nat
  filter_quality : Nat

/-- `RayTracing::new` — the initial filter state. -/
def RayTracing.new (α : Type) (device : Device) : RayTracing α :=
  { device := device
    albedo := none
    normal := none
    hdr := false
    input_scale := Float.nan
    srgb := false
    clean_aux := false
    img_dims := (0, 0, 0)
    filter_quality := 0 }

/-- `RayTracing::albedo_normal` (`filter.rs` lines 60–92).  `ok1`/`ok2` model
the outcome of the (up to two) native buffer allocations; a failed allocation
makes the `unwrap` panic, modelled as `none`.  The second `match` mirrors the
source exactly: its create-or-replace branch assigns `self.albedo`, not
`self.normal` (line 84). -/
def RayTracing.albedo_normal {α : Type} (f : RayTracing α) (ok1 ok2 : Bool)
    (albedo normal : List α) : Option (RayTracing α) :=
  let step1 : Option (RayTracing α) :=
    match f.albedo with
    | some buf =>
      if buf.size = albedo.length then
        some { f with albedo := some { buf with contents := albedo } }
      else
        (f.device.create_buffer ok1 albedo).map fun b => { f with albedo := some b }
    | none =>
      (f.device.create_buffer ok1 albedo).map fun b => { f with albedo := some b }
  step1.bind fun f1 =>
    match f1.normal with
    | some buf =>
      if buf.size = normal.length then
        some { f1 with normal := some { buf with contents := normal } }
      else
        (f1.device.create_buffer ok2 normal).map fun b => { f1 with albedo := some b }
    | none =>
      (f1.device.create_buffer ok2 normal).map fun b => { f1 with albedo := some b }

/-- `RayTracing::albedo` (`filter.rs` lines 99–116): create-or-overwrite the
staged albedo buffer. -/
def RayTracing.albedo_slice {α : Type} (f : RayTracing α) (ok : Bool)
    (albedo : List α) : Option (RayTracing α) :=
  match f.albedo with
  | some buf =>
    if buf.size = albedo.length then
      some { f with albedo := some { buf with contents := albedo } }
    else
      (f.device.create_buffer ok albedo).map fun b => { f with albedo := some b }
  | none =>
    (f.device.create_buffer ok albedo).map fun b => { f with albedo := some b }

/-- `RayTracing::albedo_normal_buffer` (`filter.rs` lines 127–138).  In Rust
the method mutates `self` and returns `Option<&mut Self>`; we return the
success flag together with the post-call state (`false` = the Rust call
returned `None`). -/
def RayTracing.albedo_normal_buffer {α : Type} (f : RayTracing α)
    (albedo normal : Buffer α) : Bool × RayTracing α :=
  if albedo.id ≠ f.device.handle ∨ normal.id ≠ f.device.handle then
    (false, f)
  else
    (true, { f with albedo := some albedo, normal := some normal })

/-- `RayTracing::image_dimensions` (`filter.rs` lines 200–220): evict any
staged auxiliary buffer whose size differs from `3*width*height`, then store
the new dimensions. -/
def RayTracing.image_dimensions {α : Type} (f : RayTracing α)
    (width height : Nat) : RayTracing α :=
  let buffer_dims := 3 * width * height
  { f with
    albedo :=
      match f.albedo with
      | none => none
      | some buffer => if buffer.size ≠ buffer_dims then none else some buffer
    normal :=
      match f.normal with
      | none => none
      | some buffer => if buffer.size ≠ buffer_dims then none else some buffer
    img_dims := (width, height, buffer_dims) }

/-- The tail of `RayTracing::execute_filter_buffer` from line 322 on, after
a color buffer has been selected: the `color` image staging, the `output`
identity and size checks, the `output` image and parameter staging, and the
commit/execute calls.  `t` is the trace accumulated so far. -/
def RayTracing.executeTail {α : Type} (f : RayTracing α) (output : Buffer α)
    (t : List NativeCall) : Except Error Unit × List NativeCall :=
  if output.id ≠ f.device.handle then
    (.error .invalidArgument, t ++ [NativeCall.setFilterImage "color"])
  else if output.size ≠ f.img_dims.2.2 then
    (.error .invalidImageDimensions, t ++ [NativeCall.setFilterImage "color"])
  else
    (.ok (), t ++
      [NativeCall.setFilterImage "color",
       NativeCall.setFilterImage "output",
       NativeCall.setFilterBool "hdr",
       NativeCall.setFilterFloat "inputScale",
       NativeCall.setFilterBool "srgb",
       NativeCall.setFilterBool "clean_aux",
       NativeCall.setFilterInt "quality",
       NativeCall.commitFilter,
       NativeCall.executeFilter])

/-- `RayTracing::execute_filter_buffer` from line 303 on: the color-buffer
selection (identity and size checks on an explicitly supplied color buffer;
size check on the output buffer when it doubles as the color input), then
`executeTail`. -/
def RayTracing.executeRest {α : Type} (f : RayTracing α) (color : Option (Buffer α))
    (output : Buffer α) (t : List NativeCall) :
    Except Error Unit × List NativeCall :=
  match color with
  | some c =>
    if c.id ≠ f.device.handle then (.error .invalidArgument, t)
    else if c.size ≠ f.img_dims.2.2 then (.error .invalidImageDimensions, t)
    else f.executeTail output t
  | none =>
    if output.size ≠ f.img_dims.2.2 then (.error .invalidImageDimensions, t)
    else f.executeTail output t

/-- `RayTracing::execute_filter_buffer` (`filter.rs` lines 259–372).
Returns the call's result together with the exact sequence of native-engine
calls it made.  Control proceeds in source order: staged-albedo size check
and staging, staged-normal size check and staging (normal is only sent when
an albedo is staged), then `executeRest`. -/
def RayTracing.execute_filter_buffer {α : Type} (f : RayTracing α)
    (color : Option (Buffer α)) (output : Buffer α) :
    Except Error Unit × List NativeCall :=
  match f.albedo with
  | some alb =>
    if alb.size ≠ f.img_dims.2.2 then (.error .invalidImageDimensions, [])
    else
      match f.normal with
      | some norm =>
        if norm.size ≠ f.img_dims.2.2 then
          (.error .invalidImageDimensions, [NativeCall.setFilterImage "albedo"])
        else
          f.executeRest color output
            [NativeCall.setFilterImage "albedo", NativeCall.setFilterImage "normal"]
      | none => f.executeRest color output [NativeCall.setFilterImage "albedo"]
  | none => f.executeRest color output []

/-- `RayTracing::execute_filter` (`filter.rs` lines 238–257): copy the slices
into transient native buffers (`ok1`/`ok2` model the two `oidnNewBuffer`
outcomes; a null handle yields `Err(OutOfMemory)`), run
`execute_filter_buffer`, then read the output buffer back. -/
def RayTracing.execute_filter {α : Type} (f : RayTracing α) (ok1 ok2 : Bool)
    (color : Option (List α)) (output : List α) :
    Except Error Unit × List NativeCall :=
  match color with
  | some cs =>
    match f.device.create_buffer ok1 cs with
    | none => (.error .outOfMemory, [NativeCall.newBuffer])
    | some cb =>
      match f.device.create_buffer ok2 output with
      | none =>
        (.error .outOfMemory,
         [NativeCall.newBuffer, NativeCall.writeBuffer, NativeCall.newBuffer])
      | some out =>
        match f.execute_filter_buffer (some cb) out with
        | (.error e, t3) =>
          (.error e,
           [NativeCall.newBuffer, NativeCall.writeBuffer,
            NativeCall.newBuffer, NativeCall.writeBuffer] ++ t3)
        | (.ok (), t3) =>
          (.ok (),
           [NativeCall.newBuffer, NativeCall.writeBuffer,
            NativeCall.newBuffer, NativeCall.writeBuffer] ++ t3 ++
             [NativeCall.readBuffer])
  | none =>
    match f.device.create_buffer ok2 output with
    | none => (.error .outOfMemory, [NativeCall.newBuffer])
    | some out =>
      match f.execute_filter_buffer none out with
      | (.error e, t3) =>
        (.error e, [NativeCall.newBuffer, NativeCall.writeBuffer] ++ t3)
      | (.ok (), t3) =>
        (.ok (),
         [NativeCall.newBuffer, NativeCall.writeBuffer] ++ t3 ++
           [NativeCall.readBuffer])

/-- `RayTracing::filter` — slice input, separate slice output. -/
def RayTracing.filter {α : Type} (f : RayTracing α) (ok1 ok2 : Bool)
    (color output : List α) : Except Error Unit × List NativeCall :=
  f.execute_filter ok1 ok2 (some color) output

/-- `RayTracing::filter_in_place` — one slice as both input and output (only
one transient native buffer is made, whose allocation outcome is `ok2`). -/
def RayTracing.filter_in_place {α : Type} (f : RayTracing α) (ok2 : Bool)
    (color : List α) : Except Error Unit × List NativeCall :=
  f.execute_filter true ok2 none color

/-- `RayTracing::filter_buffer` — caller-owned color and output buffers. -/
def RayTracing.filter_buffer {α : Type} (f : RayTracing α)
    (color : Buffer α) (output : Buffer α) : Except Error Unit × List NativeCall :=
  f.execute_filter_buffer (some color) output

/-- `RayTracing::filter_in_place_buffer` — one caller-owned buffer as both
input and output. -/
def RayTracing.filter_in_place_buffer {α : Type} (f : RayTracing α)
    (color : Buffer α) : Except Error Unit × List NativeCall :=
  f.execute_filter_buffer none color


deriving instance DecidableEq for Except

/-- The staged auxiliary buffers pass the size validations that
`execute_filter_buffer` performs before the color-buffer selection: a staged
albedo must match `3*width*height`; a staged normal is only checked (and only
sent to the engine) when an albedo is also staged. -/
def RayTracing.auxSizesOk {α : Type} (f : RayTracing α) : Bool :=
  match f.albedo with
  | none => true
  | some a =>
    (a.size == f.img_dims.2.2) &&
      (match f.normal with
       | none => true
       | some n => n.size == f.img_dims.2.2)

/-- A concrete filter state on device identity 1 with both auxiliary buffers
staged for 2×1 images, used to instantiate the dimension-change theorems. -/
def rtAux : RayTracing Nat :=
  { device := Device.new 1
    albedo := some ⟨6, 1, [1, 2, 3, 4, 5, 6]⟩
    normal := some ⟨6, 1, [7, 8, 9, 10, 11, 12]⟩
    hdr := true
    input_scale := 2.0
    srgb := true
    clean_aux := true
    img_dims := (2, 1, 6)
    filter_quality := 3 }

/-- A concrete filter state on device identity 1 with no auxiliary buffers
and 1×1 dimensions, used to instantiate the execution theorems. -/
def rtNoAux : RayTracing Nat :=
  { device := Device.new 1
    albedo := none
    normal := none
    hdr := false
    input_scale := Float.nan
    srgb := false
    clean_aux := false
    img_dims := (1, 1, 3)
    filter_quality := 0 }

/-- A concrete filter state on device identity 1 with a correctly sized
albedo buffer staged and 1×1 dimensions. -/
def rtAlbedoStaged : RayTracing Nat :=
  { device := Device.new 1
    albedo := some ⟨3, 1, [0, 0, 0]⟩
    normal := none
    hdr := false
    input_scale := Float.nan
    srgb := false
    clean_aux := false
    img_dims := (1, 1, 3)
    filter_quality := 0 }

/-! ### Verification -/

/-- **C5.** For every buffer and every slice whose length equals the buffer's
size, `write` with that slice succeeds and a subsequent `read` returns
exactly the slice (write/read round-trip). -/
theorem buffer_write_read_roundtrip {α : Type} (b : Buffer α) (s : List α)
    (h : s.length = b.size) :
    ∃ b', b.write s = some b' ∧ b'.read = s := by
  refine ⟨{ b with contents := s }, ?_, rfl⟩
  simp [Buffer.write, h]

/-- Witness for `buffer_write_read_roundtrip` at a concrete two-element
buffer. -/
theorem buffer_write_read_roundtrip_inst :
    (([7, 8] : List Nat).length = (⟨2, 1, [5, 6]⟩ : Buffer Nat).size) ∧
    ∃ b', Buffer.write (⟨2, 1, [5, 6]⟩ : Buffer Nat) [7, 8] = some b' ∧
      b'.read = [7, 8] :=
  ⟨by decide, buffer_write_read_roundtrip ⟨2, 1, [5, 6]⟩ [7, 8] (by decide)⟩

/-- **C6.** `write` returns `None` exactly when the slice length differs from
the buffer's size and `Some(())` otherwise; a successful write leaves the
stored size unchanged, and the size is the element count fixed at creation
(`read`/`read_to_slice`/`size` take the buffer immutably, so no other
operation can change it). -/
theorem buffer_write_size_guard {α : Type} (b : Buffer α) (s : List α)
    (d : Device) (c : List α) :
    (b.write s = none ↔ s.length ≠ b.size) ∧
    (∀ b', b.write s = some b' → b'.size = b.size) ∧
    (∀ b₀, d.create_buffer true c = some b₀ → b₀.size = c.length) := by
  refine ⟨?_, ?_, ?_⟩
  · rw [Buffer.write]
    split_ifs with h <;> simp <;> omega
  · intro b' hb
    rw [Buffer.write] at hb
    split_ifs at hb
    simp only [Option.some.injEq] at hb
    subst hb
    rfl
  · intro b₀ h0
    rw [Device.create_buffer] at h0
    simp only [if_true, Option.some.injEq] at h0
    subst h0
    rfl

/-- Witness for `buffer_write_size_guard` at concrete buffers: a mismatched
write fails, a matched write keeps size 2, creation fixes the size to the
slice length. -/
theorem buffer_write_size_guard_inst :
    (Buffer.write (⟨2, 1, [5, 6]⟩ : Buffer Nat) [7] = none) ∧
    ((⟨2, 1, [7, 8]⟩ : Buffer Nat).size = 2) ∧
    ((⟨1, 1, [9]⟩ : Buffer Nat).size = ([9] : List Nat).length) :=
  ⟨(buffer_write_size_guard ⟨2, 1, [5, 6]⟩ [7] (Device.new 1) [9]).1.mpr (by decide),
   (buffer_write_size_guard ⟨2, 1, [5, 6]⟩ [7, 8] (Device.new 1) [9]).2.1
     ⟨2, 1, [7, 8]⟩ (by decide),
   (buffer_write_size_guard ⟨2, 1, [5, 6]⟩ [7] (Device.new 1) [9]).2.2
     ⟨1, 1, [9]⟩ (by decide)⟩

/-- **C7.** Each accelerator factory (`cuda`, `sycl`, `hip`, `metal`) returns
`None` exactly when the native device handle is null, never failing hard for
absence (the factories are total functions into `Option`); and every device
any factory returns — including `new` and `cpu` — has been committed before
being returned. -/
theorem device_factories_commit_and_null (h : Int) :
    (Device.cuda h = none ↔ h = 0) ∧ (Device.sycl h = none ↔ h = 0) ∧
    (Device.hip h = none ↔ h = 0) ∧ (Device.metal h = none ↔ h = 0) ∧
    (∀ d, Device.cuda h = some d → d.committed = true) ∧
    (∀ d, Device.sycl h = some d → d.committed = true) ∧
    (∀ d, Device.hip h = some d → d.committed = true) ∧
    (∀ d, Device.metal h = some d → d.committed = true) ∧
    (Device.new h).committed = true ∧ (Device.cpu h).committed = true := by
  unfold Device.cuda Device.sycl Device.hip Device.metal Device.new Device.cpu
  by_cases h0 : h = 0 <;> simp [h0]

/-- Witness for `device_factories_commit_and_null` at the non-null handle 5:
`cuda` returns a device, and that device is committed. -/
theorem device_factories_commit_and_null_inst :
    ((Device.cuda 5 = none) ↔ (5 : Int) = 0) ∧
    (⟨5, true⟩ : Device).committed = true :=
  ⟨(device_factories_commit_and_null 5).1,
   (device_factories_commit_and_null 5).2.2.2.2.1 ⟨5, true⟩ (by decide)⟩

/-- **C8 counterexample.** Native code 7 is nonzero and is none of the seven
codes the claim enumerates, yet `get_error` does not panic there: the
`try_into().unwrap()` conversion succeeds, because `InvalidImageDimensions`
occupies the implicit next `u32` discriminant, 7. -/
theorem get_error_code_seven_converts :
    Device.get_error 7 "m" =
      some (Except.error (Error.invalidImageDimensions, "m")) := rfl

/-- **C8 (amended).** The conversion unwrap in `get_error` panics exactly
when the reported code is not a discriminant of `Error`, i.e. when it is at
least 8: the panic-free precondition is code ∈ {0,…,7}, the seven enumerated
codes plus `InvalidImageDimensions`' implicit discriminant 7. -/
theorem get_error_panic_iff (code : Nat) (msg : String) :
    Device.get_error code msg = none ↔ 8 ≤ code := by
  unfold Device.get_error Error.tryFromU32
  split_ifs <;> simp <;> omega

/-- **C9.** `albedo_normal_buffer` is atomic: when either supplied buffer
fails the same-device check, the call returns `None` and both the staged
albedo and the staged normal are exactly as they were. -/
theorem albedo_normal_buffer_atomic {α : Type} (f : RayTracing α)
    (a n : Buffer α) (h : a.id ≠ f.device.handle ∨ n.id ≠ f.device.handle) :
    f.albedo_normal_buffer a n = (false, f) ∧
    (f.albedo_normal_buffer a n).2.albedo = f.albedo ∧
    (f.albedo_normal_buffer a n).2.normal = f.normal := by
  unfold RayTracing.albedo_normal_buffer
  rw [if_pos h]
  exact ⟨rfl, rfl, rfl⟩

/-- Witness for `albedo_normal_buffer_atomic`: an albedo buffer from device
identity 2 supplied to a filter on device identity 1 is rejected without a
state change. -/
theorem albedo_normal_buffer_atomic_inst :
    ((⟨3, 2, [0, 0, 0]⟩ : Buffer Nat).id ≠
      (RayTracing.new Nat (Device.new 1)).device.handle ∨
     (⟨3, 1, [0, 0, 0]⟩ : Buffer Nat).id ≠
      (RayTracing.new Nat (Device.new 1)).device.handle) ∧
    (RayTracing.new Nat (Device.new 1)).albedo_normal_buffer
      ⟨3, 2, [0, 0, 0]⟩ ⟨3, 1, [0, 0, 0]⟩ =
      (false, RayTracing.new Nat (Device.new 1)) :=
  ⟨Or.inl (by decide),
   (albedo_normal_buffer_atomic (RayTracing.new Nat (Device.new 1))
     ⟨3, 2, [0, 0, 0]⟩ ⟨3, 1, [0, 0, 0]⟩ (Or.inl (by decide))).1⟩

/-- The staged-albedo component of `image_dimensions`: evicted exactly when
its size differs from the new `3*width*height`. -/
theorem image_dimensions_albedo {α : Type} (f : RayTracing α) (w h : Nat) :
    (f.image_dimensions w h).albedo =
      match f.albedo with
      | none => none
      | some b => if b.size ≠ 3 * w * h then none else some b := rfl

/-- The staged-normal component of `image_dimensions`. -/
theorem image_dimensions_normal {α : Type} (f : RayTracing α) (w h : Nat) :
    (f.image_dimensions w h).normal =
      match f.normal with
      | none => none
      | some b => if b.size ≠ 3 * w * h then none else some b := rfl

/-- `image_dimensions` leaves every non-auxiliary field unchanged except the
stored dimensions, which become `(width, height, 3*width*height)`. -/
theorem image_dimensions_rest {α : Type} (f : RayTracing α) (w h : Nat) :
    (f.image_dimensions w h).hdr = f.hdr ∧
    (f.image_dimensions w h).srgb = f.srgb ∧
    (f.image_dimensions w h).clean_aux = f.clean_aux ∧
    (f.image_dimensions w h).input_scale = f.input_scale ∧
    (f.image_dimensions w h).filter_quality = f.filter_quality ∧
    (f.image_dimensions w h).device = f.device ∧
    (f.image_dimensions w h).img_dims = (w, h, 3 * w * h) :=
  ⟨rfl, rfl, rfl, rfl, rfl, rfl, rfl⟩

/-- **C4.** After `image_dimensions(w2, h2)`, a staged auxiliary buffer sized
for earlier dimensions `(w1, h1)` with `3*w1*h1 ≠ 3*w2*h2` has been evicted,
and every auxiliary buffer still staged has element count `3*w2*h2`. -/
theorem image_dimensions_evicts_stale_aux {α : Type} (f : RayTracing α)
    (w1 h1 w2 h2 : Nat) (hne : 3 * w1 * h1 ≠ 3 * w2 * h2) :
    (∀ b, f.albedo = some b → b.size = 3 * w1 * h1 →
      (f.image_dimensions w2 h2).albedo = none) ∧
    (∀ b, f.normal = some b → b.size = 3 * w1 * h1 →
      (f.image_dimensions w2 h2).normal = none) ∧
    (∀ b, (f.image_dimensions w2 h2).albedo = some b → b.size = 3 * w2 * h2) ∧
    (∀ b, (f.image_dimensions w2 h2).normal = some b → b.size = 3 * w2 * h2) := by
  refine ⟨?_, ?_, ?_, ?_⟩
  · intro b hb hs
    simp only [image_dimensions_albedo, hb]
    rw [if_pos (by rw [hs]; exact hne)]
  · intro b hb hs
    simp only [image_dimensions_normal, hb]
    rw [if_pos (by rw [hs]; exact hne)]
  · intro b hb
    rw [image_dimensions_albedo] at hb
    rcases hA : f.albedo with _ | bA <;> simp only [hA] at hb
    · exact absurd hb (by simp)
    · split_ifs at hb with hc
      simp only [Option.some.injEq] at hb
      subst hb
      exact not_not.mp hc
  · intro b hb
    rw [image_dimensions_normal] at hb
    rcases hN : f.normal with _ | bN <;> simp only [hN] at hb
    · exact absurd hb (by simp)
    · split_ifs at hb with hc
      simp only [Option.some.injEq] at hb
      subst hb
      exact not_not.mp hc

/-- Witness for `image_dimensions_evicts_stale_aux`: a filter with both
auxiliary buffers staged for 2×1 images loses both on resizing to 1×1. -/
theorem image_dimensions_evicts_stale_aux_inst :
    (3 * 2 * 1 ≠ 3 * 1 * 1) ∧
    (rtAux.image_dimensions 1 1).albedo = none ∧
    (rtAux.image_dimensions 1 1).normal = none :=
  ⟨by decide,
   (image_dimensions_evicts_stale_aux rtAux 2 1 1 1 (by decide)).1
     ⟨6, 1, [1, 2, 3, 4, 5, 6]⟩ rfl (by decide),
   (image_dimensions_evicts_stale_aux rtAux 2 1 1 1 (by decide)).2.1
     ⟨6, 1, [7, 8, 9, 10, 11, 12]⟩ rfl (by decide)⟩

/-- **C10.** `image_dimensions(w, h)` only updates the stored dimensions and
evicts mismatched auxiliary buffers: a staged auxiliary buffer of element
count `3*w*h` is retained with its contents unchanged, and the `hdr`, `srgb`,
`clean_aux`, `input_scale` and quality settings (and the owning device) are
untouched. -/
theorem image_dimensions_frame_condition {α : Type} (f : RayTracing α)
    (w h : Nat) :
    (∀ b, f.albedo = some b → b.size = 3 * w * h →
      (f.image_dimensions w h).albedo = some b) ∧
    (∀ b, f.normal = some b → b.size = 3 * w * h →
      (f.image_dimensions w h).normal = some b) ∧
    (f.image_dimensions w h).hdr = f.hdr ∧
    (f.image_dimensions w h).srgb = f.srgb ∧
    (f.image_dimensions w h).clean_aux = f.clean_aux ∧
    (f.image_dimensions w h).input_scale = f.input_scale ∧
    (f.image_dimensions w h).filter_quality = f.filter_quality ∧
    (f.image_dimensions w h).device = f.device ∧
    (f.image_dimensions w h).img_dims = (w, h, 3 * w * h) := by
  obtain ⟨h1, h2, h3, h4, h5, h6, h7⟩ := image_dimensions_rest f w h
  refine ⟨?_, ?_, h1, h2, h3, h4, h5, h6, h7⟩
  · intro b hb hs
    simp only [image_dimensions_albedo, hb]
    rw [if_neg (by simp [hs])]
  · intro b hb hs
    simp only [image_dimensions_normal, hb]
    rw [if_neg (by simp [hs])]

/-- Witness for `image_dimensions_frame_condition`: resizing `rtAux` to its
own 2×1 dimensions keeps the staged albedo and every setting. -/
theorem image_dimensions_frame_condition_inst :
    (rtAux.image_dimensions 2 1).albedo = some ⟨6, 1, [1, 2, 3, 4, 5, 6]⟩ ∧
    (rtAux.image_dimensions 2 1).hdr = rtAux.hdr ∧
    (rtAux.image_dimensions 2 1).input_scale = rtAux.input_scale ∧
    (rtAux.image_dimensions 2 1).filter_quality = rtAux.filter_quality :=
  ⟨(image_dimensions_frame_condition rtAux 2 1).1
     ⟨6, 1, [1, 2, 3, 4, 5, 6]⟩ rfl (by decide),
   (image_dimensions_frame_condition rtAux 2 1).2.2.1,
   (image_dimensions_frame_condition rtAux 2 1).2.2.2.2.2.1,
   (image_dimensions_frame_condition rtAux 2 1).2.2.2.2.2.2.1⟩

/-- **C1 (code evaluated at the failing input).** On a fresh filter,
`albedo_normal([10,20,30], [40,50,60])` does not stage the normal slice at
all: it leaves the normal buffer absent and overwrites the just-staged albedo
with the normal slice's contents, because the create-or-allocate branch for
the normal buffer assigns `self.albedo` (`filter.rs` line 84).  The claim —
albedo holds the albedo slice and normal holds the normal slice — describes
the documented intent; the code diverges from it. -/
theorem albedo_normal_misassigns_normal :
    ((RayTracing.new Nat (Device.new 1)).albedo_normal true true
        [10, 20, 30] [40, 50, 60]).map
      (fun f => (f.albedo.map Buffer.contents, f.normal.map Buffer.contents)) =
      some (some [40, 50, 60], none) := rfl

/-- If `executeTail` does not succeed, it adds no commit or execute call to a
trace that had none. -/
theorem executeTail_trace_no_commit {α : Type} (f : RayTracing α)
    (o : Buffer α) (t : List NativeCall)
    (ht : NativeCall.commitFilter ∉ t ∧ NativeCall.executeFilter ∉ t)
    (herr : (f.executeTail o t).1 ≠ .ok ()) :
    NativeCall.commitFilter ∉ (f.executeTail o t).2 ∧
    NativeCall.executeFilter ∉ (f.executeTail o t).2 := by
  unfold RayTracing.executeTail at herr ⊢
  split_ifs at herr ⊢ <;> simp_all

/-- If `executeRest` does not succeed, it adds no commit or execute call to a
trace that had none. -/
theorem executeRest_trace_no_commit {α : Type} (f : RayTracing α)
    (color : Option (Buffer α)) (o : Buffer α) (t : List NativeCall)
    (ht : NativeCall.commitFilter ∉ t ∧ NativeCall.executeFilter ∉ t)
    (herr : (f.executeRest color o t).1 ≠ .ok ()) :
    NativeCall.commitFilter ∉ (f.executeRest color o t).2 ∧
    NativeCall.executeFilter ∉ (f.executeRest color o t).2 := by
  rcases color with _ | c <;> simp only [RayTracing.executeRest] at herr ⊢
  · split_ifs at herr ⊢ with h1
    · simp_all
    · exact executeTail_trace_no_commit f o t ht herr
  · split_ifs at herr ⊢ with h1 h2
    · simp_all
    · simp_all
    · exact executeTail_trace_no_commit f o t ht herr

/-- If `execute_filter_buffer` does not succeed, its native-call trace
contains neither a commit nor an execute call. -/
theorem exec_buffer_trace_no_commit {α : Type} (f : RayTracing α)
    (color : Option (Buffer α)) (o : Buffer α)
    (herr : (f.execute_filter_buffer color o).1 ≠ .ok ()) :
    NativeCall.commitFilter ∉ (f.execute_filter_buffer color o).2 ∧
    NativeCall.executeFilter ∉ (f.execute_filter_buffer color o).2 := by
  unfold RayTracing.execute_filter_buffer at herr ⊢
  rcases hA : f.albedo with _ | alb <;> simp only [hA] at herr ⊢
  · exact executeRest_trace_no_commit f color o [] (by simp) herr
  · rcases hN : f.normal with _ | nrm <;> simp only [hN] at herr ⊢
    · split_ifs at herr ⊢ with h1
      · simp
      · exact executeRest_trace_no_commit f color o _ (by simp) herr
    · split_ifs at herr ⊢ with h1 h2
      · simp
      · simp
      · exact executeRest_trace_no_commit f color o _ (by simp) herr

/-- If `execute_filter` does not succeed, its native-call trace contains
neither a commit nor an execute call. -/
theorem exec_slice_trace_no_commit {α : Type} (f : RayTracing α)
    (ok1 ok2 : Bool) (color : Option (List α)) (output : List α)
    (herr : (f.execute_filter ok1 ok2 color output).1 ≠ .ok ()) :
    NativeCall.commitFilter ∉ (f.execute_filter ok1 ok2 color output).2 ∧
    NativeCall.executeFilter ∉ (f.execute_filter ok1 ok2 color output).2 := by
  unfold RayTracing.execute_filter at herr ⊢
  rcases color with _ | cs
  · rcases hB : f.device.create_buffer ok2 output with _ | out <;>
      simp only [hB] at herr ⊢
    · simp
    · rcases hE : f.execute_filter_buffer none out with ⟨r, t3⟩
      have hne : (f.execute_filter_buffer none out).1 ≠ .ok () → 
          NativeCall.commitFilter ∉ t3 ∧ NativeCall.executeFilter ∉ t3 := by
        intro hh
        have := exec_buffer_trace_no_commit f none out hh
        rw [hE] at this
        exact this
      rcases r with e | u
      · simp only [hE] at herr ⊢
        have h3 := hne (by rw [hE]; simp)
        simp_all
      · cases u
        simp only [hE] at herr
        simp at herr
  · rcases hC : f.device.create_buffer ok1 cs with _ | cb <;>
      simp only [hC] at herr ⊢
    · simp
    · rcases hB : f.device.create_buffer ok2 output with _ | out <;>
        simp only [hB] at herr ⊢
      · simp
      · rcases hE : f.execute_filter_buffer (some cb) out with ⟨r, t3⟩
        have hne : (f.execute_filter_buffer (some cb) out).1 ≠ .ok () →
            NativeCall.commitFilter ∉ t3 ∧ NativeCall.executeFilter ∉ t3 := by
          intro hh
          have := exec_buffer_trace_no_commit f (some cb) out hh
          rw [hE] at this
          exact this
        rcases r with e | u
        · simp only [hE] at herr ⊢
          have h3 := hne (by rw [hE]; simp)
          simp_all
        · cases u
          simp only [hE] at herr
          simp at herr

/-- An output buffer of the filter's own device but mismatched size makes
`executeTail` fail with `InvalidImageDimensions`. -/
theorem executeTail_IID {α : Type} (f : RayTracing α) (o : Buffer α)
    (t : List NativeCall) (hid : o.id = f.device.handle)
    (hsz : o.size ≠ f.img_dims.2.2) :
    (f.executeTail o t).1 = .error .invalidImageDimensions := by
  unfold RayTracing.executeTail
  rw [if_neg (by simp [hid]), if_pos hsz]

/-- An output buffer of a foreign device makes `executeTail` fail with
`InvalidArgument`. -/
theorem executeTail_IA {α : Type} (f : RayTracing α) (o : Buffer α)
    (t : List NativeCall) (hid : o.id ≠ f.device.handle) :
    (f.executeTail o t).1 = .error .invalidArgument := by
  unfold RayTracing.executeTail
  rw [if_pos hid]

/-- With matching device identities, a color or output size mismatch makes
`executeRest` (explicit color) fail with `InvalidImageDimensions`. -/
theorem executeRest_IID_some {α : Type} (f : RayTracing α) (c o : Buffer α)
    (t : List NativeCall) (hcid : c.id = f.device.handle)
    (hoid : o.id = f.device.handle)
    (hmis : c.size ≠ f.img_dims.2.2 ∨ o.size ≠ f.img_dims.2.2) :
    (f.executeRest (some c) o t).1 = .error .invalidImageDimensions := by
  simp only [RayTracing.executeRest]
  rw [if_neg (by simp [hcid])]
  by_cases hcs : c.size ≠ f.img_dims.2.2
  · rw [if_pos hcs]
  · rw [if_neg hcs]
    exact executeTail_IID f o t hoid (hmis.resolve_left hcs)

/-- An output size mismatch makes `executeRest` (in-place color) fail with
`InvalidImageDimensions`, before the output identity is ever examined. -/
theorem executeRest_IID_none {α : Type} (f : RayTracing α) (o : Buffer α)
    (t : List NativeCall) (hos : o.size ≠ f.img_dims.2.2) :
    (f.executeRest none o t).1 = .error .invalidImageDimensions := by
  simp only [RayTracing.executeRest]
  rw [if_pos hos]

/-- A foreign color buffer makes `executeRest` fail with
`InvalidArgument`. -/
theorem executeRest_IA_color {α : Type} (f : RayTracing α) (c o : Buffer α)
    (t : List NativeCall) (hcid : c.id ≠ f.device.handle) :
    (f.executeRest (some c) o t).1 = .error .invalidArgument := by
  simp only [RayTracing.executeRest]
  rw [if_pos hcid]

/-- With a valid color buffer, a foreign output buffer makes `executeRest`
fail with `InvalidArgument`. -/
theorem executeRest_IA_output {α : Type} (f : RayTracing α) (c o : Buffer α)
    (t : List NativeCall) (hcid : c.id = f.device.handle)
    (hcs : c.size = f.img_dims.2.2) (hoid : o.id ≠ f.device.handle) :
    (f.executeRest (some c) o t).1 = .error .invalidArgument := by
  simp only [RayTracing.executeRest]
  rw [if_neg (by simp [hcid]), if_neg (by simp [hcs])]
  exact executeTail_IA f o t hoid

/-- In-place: with a size-matched buffer of a foreign device, `executeRest`
fails with `InvalidArgument`. -/
theorem executeRest_IA_none {α : Type} (f : RayTracing α) (o : Buffer α)
    (t : List NativeCall) (hos : o.size = f.img_dims.2.2)
    (hoid : o.id ≠ f.device.handle) :
    (f.executeRest none o t).1 = .error .invalidArgument := by
  simp only [RayTracing.executeRest]
  rw [if_neg (by simp [hos])]
  exact executeTail_IA f o t hoid

/-- A device-identity mismatch on either supplied buffer prevents
`executeRest` (explicit color) from succeeding. -/
theorem executeRest_some_not_ok {α : Type} (f : RayTracing α) (c o : Buffer α)
    (t : List NativeCall)
    (hid : c.id ≠ f.device.handle ∨ o.id ≠ f.device.handle) :
    (f.executeRest (some c) o t).1 ≠ .ok () := by
  simp only [RayTracing.executeRest]
  by_cases hc : c.id ≠ f.device.handle
  · rw [if_pos hc]
    simp
  · rw [if_neg hc]
    have ho := hid.resolve_left hc
    by_cases hcs : c.size ≠ f.img_dims.2.2
    · rw [if_pos hcs]
      simp
    · rw [if_neg hcs]
      unfold RayTracing.executeTail
      rw [if_pos ho]
      simp

/-- A device-identity mismatch on the in-place buffer prevents `executeRest`
from succeeding. -/
theorem executeRest_none_not_ok {α : Type} (f : RayTracing α) (o : Buffer α)
    (t : List NativeCall) (ho : o.id ≠ f.device.handle) :
    (f.executeRest none o t).1 ≠ .ok () := by
  simp only [RayTracing.executeRest]
  by_cases hos : o.size ≠ f.img_dims.2.2
  · rw [if_pos hos]
    simp
  · rw [if_neg hos]
    unfold RayTracing.executeTail
    rw [if_pos ho]
    simp

/-- Lifting `executeRest_IID_some` through the auxiliary-image staging: the
albedo/normal gates either fail with the same error or pass through. -/
theorem exec_buffer_IID_some {α : Type} (f : RayTracing α) (c o : Buffer α)
    (hcid : c.id = f.device.handle) (hoid : o.id = f.device.handle)
    (hmis : c.size ≠ f.img_dims.2.2 ∨ o.size ≠ f.img_dims.2.2) :
    (f.execute_filter_buffer (some c) o).1 = .error .invalidImageDimensions := by
  unfold RayTracing.execute_filter_buffer
  rcases hA : f.albedo with _ | alb <;> simp only [hA]
  · exact executeRest_IID_some f c o [] hcid hoid hmis
  · by_cases ha : alb.size ≠ f.img_dims.2.2
    · rw [if_pos ha]
    · rw [if_neg ha]
      rcases hN : f.normal with _ | nrm <;> simp only [hN]
      · exact executeRest_IID_some f c o _ hcid hoid hmis
      · by_cases hn : nrm.size ≠ f.img_dims.2.2
        · rw [if_pos hn]
        · rw [if_neg hn]
          exact executeRest_IID_some f c o _ hcid hoid hmis

/-- In-place variant of `exec_buffer_IID_some`: an output size mismatch
always surfaces as `InvalidImageDimensions`. -/
theorem exec_buffer_IID_none {α : Type} (f : RayTracing α) (o : Buffer α)
    (hos : o.size ≠ f.img_dims.2.2) :
    (f.execute_filter_buffer none o).1 = .error .invalidImageDimensions := by
  unfold RayTracing.execute_filter_buffer
  rcases hA : f.albedo with _ | alb <;> simp only [hA]
  · exact executeRest_IID_none f o [] hos
  · by_cases ha : alb.size ≠ f.img_dims.2.2
    · rw [if_pos ha]
    · rw [if_neg ha]
      rcases hN : f.normal with _ | nrm <;> simp only [hN]
      · exact executeRest_IID_none f o _ hos
      · by_cases hn : nrm.size ≠ f.img_dims.2.2
        · rw [if_pos hn]
        · rw [if_neg hn]
          exact executeRest_IID_none f o _ hos

/-- A device-identity mismatch on either supplied buffer prevents
`execute_filter_buffer` (explicit color) from succeeding. -/
theorem exec_buffer_some_not_ok {α : Type} (f : RayTracing α) (c o : Buffer α)
    (hid : c.id ≠ f.device.handle ∨ o.id ≠ f.device.handle) :
    (f.execute_filter_buffer (some c) o).1 ≠ .ok () := by
  unfold RayTracing.execute_filter_buffer
  rcases hA : f.albedo with _ | alb <;> simp only [hA]
  · exact executeRest_some_not_ok f c o [] hid
  · by_cases ha : alb.size ≠ f.img_dims.2.2
    · rw [if_pos ha]
      simp
    · rw [if_neg ha]
      rcases hN : f.normal with _ | nrm <;> simp only [hN]
      · exact executeRest_some_not_ok f c o _ hid
      · by_cases hn : nrm.size ≠ f.img_dims.2.2
        · rw [if_pos hn]
          simp
        · rw [if_neg hn]
          exact executeRest_some_not_ok f c o _ hid

/-- A device-identity mismatch on the in-place buffer prevents
`execute_filter_buffer` from succeeding. -/
theorem exec_buffer_none_not_ok {α : Type} (f : RayTracing α) (o : Buffer α)
    (ho : o.id ≠ f.device.handle) :
    (f.execute_filter_buffer none o).1 ≠ .ok () := by
  unfold RayTracing.execute_filter_buffer
  rcases hA : f.albedo with _ | alb <;> simp only [hA]
  · exact executeRest_none_not_ok f o [] ho
  · by_cases ha : alb.size ≠ f.img_dims.2.2
    · rw [if_pos ha]
      simp
    · rw [if_neg ha]
      rcases hN : f.normal with _ | nrm <;> simp only [hN]
      · exact executeRest_none_not_ok f o _ ho
      · by_cases hn : nrm.size ≠ f.img_dims.2.2
        · rw [if_pos hn]
          simp
        · rw [if_neg hn]
          exact executeRest_none_not_ok f o _ ho

/-- When the staged auxiliary buffers pass their size validations,
`execute_filter_buffer` is `executeRest` under some staging trace. -/
theorem exec_buffer_auxOk {α : Type} (f : RayTracing α)
    (color : Option (Buffer α)) (o : Buffer α)
    (haux : f.auxSizesOk = true) :
    ∃ t, f.execute_filter_buffer color o = f.executeRest color o t := by
  unfold RayTracing.auxSizesOk at haux
  unfold RayTracing.execute_filter_buffer
  rcases hA : f.albedo with _ | alb <;> simp only [hA] at haux ⊢
  · exact ⟨[], rfl⟩
  · rcases hN : f.normal with _ | nrm <;> simp only [hN] at haux ⊢
    · simp only [Bool.and_eq_true, beq_iff_eq] at haux
      rw [if_neg (by simp [haux.1])]
      exact ⟨_, rfl⟩
    · simp only [Bool.and_eq_true, beq_iff_eq] at haux
      rw [if_neg (by simp [haux.1]), if_neg (by simp [haux.2])]
      exact ⟨_, rfl⟩

/-- With successful transient allocations, a slice-length mismatch makes
`execute_filter` (explicit color) fail with `InvalidImageDimensions`: the
transient buffers carry the filter's own device identity, so only the size
checks can fire. -/
theorem exec_slice_IID_some {α : Type} (f : RayTracing α) (cs os : List α)
    (hmis : cs.length ≠ f.img_dims.2.2 ∨ os.length ≠ f.img_dims.2.2) :
    (f.execute_filter true true (some cs) os).1 =
      .error .invalidImageDimensions := by
  unfold RayTracing.execute_filter
  simp only [Device.create_buffer, if_true]
  rcases hE : f.execute_filter_buffer
      (some { size := cs.length, id := f.device.handle, contents := cs })
      { size := os.length, id := f.device.handle, contents := os } with ⟨r, t3⟩
  have hr : r = .error .invalidImageDimensions := by
    have h2 := exec_buffer_IID_some f
      { size := cs.length, id := f.device.handle, contents := cs }
      { size := os.length, id := f.device.handle, contents := os }
      rfl rfl (by simpa using hmis)
    rw [hE] at h2
    exact h2
  subst hr
  simp [hE]

/-- In-place slice variant of `exec_slice_IID_some`. -/
theorem exec_slice_IID_none {α : Type} (f : RayTracing α) (os : List α)
    (hmis : os.length ≠ f.img_dims.2.2) :
    (f.execute_filter true true none os).1 =
      .error .invalidImageDimensions := by
  unfold RayTracing.execute_filter
  simp only [Device.create_buffer, if_true]
  rcases hE : f.execute_filter_buffer none
      { size := os.length, id := f.device.handle, contents := os } with ⟨r, t3⟩
  have hr : r = .error .invalidImageDimensions := by
    have h2 := exec_buffer_IID_none f
      { size := os.length, id := f.device.handle, contents := os }
      (by simpa using hmis)
    rw [hE] at h2
    exact h2
  subst hr
  simp [hE]

/-- **C2 counterexample.** With a correctly sized albedo staged,
`filter_buffer` on a same-device color buffer of mismatched element count
does return `Err(InvalidImageDimensions)` — but it has already called into
the native engine: the albedo image was staged on the native filter before
the color size check, so the claim's "performs no native-engine call at all"
is false. -/
theorem filter_buffer_stages_albedo_before_validation :
    (rtAlbedoStaged.filter_buffer ⟨2, 1, [0, 0]⟩ ⟨3, 1, [0, 0, 0]⟩).1 =
      .error .invalidImageDimensions ∧
    (rtAlbedoStaged.filter_buffer ⟨2, 1, [0, 0]⟩ ⟨3, 1, [0, 0, 0]⟩).2 =
      [NativeCall.setFilterImage "albedo"] := ⟨rfl, rfl⟩

/-- **C2 (amended).** For every execution variant, a color or output element
count different from the configured `3*width*height` yields
`Err(InvalidImageDimensions)` and the native commit and execute steps are
never reached — provided the supplied buffers pass the same-device identity
checks (automatic for the slice variants, whose transient buffers are created
on the filter's device) and, for the slice variants, the transient native
allocations succeed.  Native buffer creation and auxiliary image staging may
however already have happened when the failure is reported. -/
theorem filter_dim_mismatch_rejected {α : Type} (f : RayTracing α)
    (c o : Buffer α) (cs os : List α) :
    ((c.id = f.device.handle → o.id = f.device.handle →
      c.size ≠ f.img_dims.2.2 ∨ o.size ≠ f.img_dims.2.2 →
      (f.filter_buffer c o).1 = .error .invalidImageDimensions ∧
      NativeCall.commitFilter ∉ (f.filter_buffer c o).2 ∧
      NativeCall.executeFilter ∉ (f.filter_buffer c o).2)) ∧
    ((o.size ≠ f.img_dims.2.2 →
      (f.filter_in_place_buffer o).1 = .error .invalidImageDimensions ∧
      NativeCall.commitFilter ∉ (f.filter_in_place_buffer o).2 ∧
      NativeCall.executeFilter ∉ (f.filter_in_place_buffer o).2)) ∧
    ((cs.length ≠ f.img_dims.2.2 ∨ os.length ≠ f.img_dims.2.2 →
      (f.filter true true cs os).1 = .error .invalidImageDimensions ∧
      NativeCall.commitFilter ∉ (f.filter true true cs os).2 ∧
      NativeCall.executeFilter ∉ (f.filter true true cs os).2)) ∧
    ((os.length ≠ f.img_dims.2.2 →
      (f.filter_in_place true os).1 = .error .invalidImageDimensions ∧
      NativeCall.commitFilter ∉ (f.filter_in_place true os).2 ∧
      NativeCall.executeFilter ∉ (f.filter_in_place true os).2)) := by
  refine ⟨?_, ?_, ?_, ?_⟩
  · intro h1 h2 h3
    simp only [RayTracing.filter_buffer]
    have hr := exec_buffer_IID_some f c o h1 h2 h3
    have hne : (f.execute_filter_buffer (some c) o).1 ≠ .ok () := by
      rw [hr]
      simp
    obtain ⟨hc1, hc2⟩ := exec_buffer_trace_no_commit f (some c) o hne
    exact ⟨hr, hc1, hc2⟩
  · intro h3
    simp only [RayTracing.filter_in_place_buffer]
    have hr := exec_buffer_IID_none f o h3
    have hne : (f.execute_filter_buffer none o).1 ≠ .ok () := by
      rw [hr]
      simp
    obtain ⟨hc1, hc2⟩ := exec_buffer_trace_no_commit f none o hne
    exact ⟨hr, hc1, hc2⟩
  · intro h3
    simp only [RayTracing.filter]
    have hr := exec_slice_IID_some f cs os h3
    have hne : (f.execute_filter true true (some cs) os).1 ≠ .ok () := by
      rw [hr]
      simp
    obtain ⟨hc1, hc2⟩ := exec_slice_trace_no_commit f true true (some cs) os hne
    exact ⟨hr, hc1, hc2⟩
  · intro h3
    simp only [RayTracing.filter_in_place]
    have hr := exec_slice_IID_none f os h3
    have hne : (f.execute_filter true true none os).1 ≠ .ok () := by
      rw [hr]
      simp
    obtain ⟨hc1, hc2⟩ := exec_slice_trace_no_commit f true true none os hne
    exact ⟨hr, hc1, hc2⟩

/-- Witness for `filter_dim_mismatch_rejected`: a same-device color buffer of
2 elements against configured count 3 fails with `InvalidImageDimensions`
without commit or execute. -/
theorem filter_dim_mismatch_rejected_inst :
    (rtNoAux.filter_buffer ⟨2, 1, [0, 0]⟩ ⟨3, 1, [0, 0, 0]⟩).1 =
      .error .invalidImageDimensions ∧
    NativeCall.commitFilter ∉
      (rtNoAux.filter_buffer ⟨2, 1, [0, 0]⟩ ⟨3, 1, [0, 0, 0]⟩).2 ∧
    NativeCall.executeFilter ∉
      (rtNoAux.filter_buffer ⟨2, 1, [0, 0]⟩ ⟨3, 1, [0, 0, 0]⟩).2 :=
  (filter_dim_mismatch_rejected rtNoAux ⟨2, 1, [0, 0]⟩ ⟨3, 1, [0, 0, 0]⟩
    [] []).1 (by decide) (by decide) (Or.inl (by decide))

/-- **C3 counterexample.** `filter_buffer` with an output buffer from a
foreign device but a same-device color buffer of mismatched size returns
`Err(InvalidImageDimensions)`, not `Err(InvalidArgument)`: the color size
check precedes the output identity check. -/
theorem filter_buffer_id_mismatch_yields_dim_error :
    ((⟨3, 5, [0, 0, 0]⟩ : Buffer Nat).id ≠ rtNoAux.device.handle) ∧
    (rtNoAux.filter_buffer ⟨2, 1, [0, 0]⟩ ⟨3, 5, [0, 0, 0]⟩).1 =
      .error .invalidImageDimensions ∧
    (rtNoAux.filter_buffer ⟨2, 1, [0, 0]⟩ ⟨3, 5, [0, 0, 0]⟩).1 ≠
      .error .invalidArgument :=
  ⟨by decide, rfl, by decide⟩

/-- **C3 (amended).** For every buffer-accepting execution variant, a
supplied color or output buffer whose device identity differs from the
filter's device makes the call fail — it never panics and never reaches
commit/execute; the failure is `Err(InvalidArgument)` provided every
validation that precedes the identity check passes (staged auxiliary sizes,
and the color size for an output-identity mismatch, or the output size for
the in-place variant), and otherwise is the earlier check's
`Err(InvalidImageDimensions)`. -/
theorem filter_buffer_device_mismatch_rejected {α : Type} (f : RayTracing α)
    (c o : Buffer α) :
    ((c.id ≠ f.device.handle ∨ o.id ≠ f.device.handle →
      (f.filter_buffer c o).1 ≠ .ok () ∧
      NativeCall.commitFilter ∉ (f.filter_buffer c o).2 ∧
      NativeCall.executeFilter ∉ (f.filter_buffer c o).2)) ∧
    ((o.id ≠ f.device.handle →
      (f.filter_in_place_buffer o).1 ≠ .ok () ∧
      NativeCall.commitFilter ∉ (f.filter_in_place_buffer o).2 ∧
      NativeCall.executeFilter ∉ (f.filter_in_place_buffer o).2)) ∧
    ((f.auxSizesOk = true → c.id ≠ f.device.handle →
      (f.filter_buffer c o).1 = .error .invalidArgument)) ∧
    ((f.auxSizesOk = true → c.id = f.device.handle →
      c.size = f.img_dims.2.2 → o.id ≠ f.device.handle →
      (f.filter_buffer c o).1 = .error .invalidArgument)) ∧
    ((f.auxSizesOk = true → o.size = f.img_dims.2.2 →
      o.id ≠ f.device.handle →
      (f.filter_in_place_buffer o).1 = .error .invalidArgument)) := by
  refine ⟨?_, ?_, ?_, ?_, ?_⟩
  · intro hid
    simp only [RayTracing.filter_buffer]
    have hne := exec_buffer_some_not_ok f c o hid
    obtain ⟨hc1, hc2⟩ := exec_buffer_trace_no_commit f (some c) o hne
    exact ⟨hne, hc1, hc2⟩
  · intro hid
    simp only [RayTracing.filter_in_place_buffer]
    have hne := exec_buffer_none_not_ok f o hid
    obtain ⟨hc1, hc2⟩ := exec_buffer_trace_no_commit f none o hne
    exact ⟨hne, hc1, hc2⟩
  · intro haux hcid
    simp only [RayTracing.filter_buffer]
    obtain ⟨t, ht⟩ := exec_buffer_auxOk f (some c) o haux
    rw [ht]
    exact executeRest_IA_color f c o t hcid
  · intro haux hcid hcs hoid
    simp only [RayTracing.filter_buffer]
    obtain ⟨t, ht⟩ := exec_buffer_auxOk f (some c) o haux
    rw [ht]
    exact executeRest_IA_output f c o t hcid hcs hoid
  · intro haux hos hoid
    simp only [RayTracing.filter_in_place_buffer]
    obtain ⟨t, ht⟩ := exec_buffer_auxOk f none o haux
    rw [ht]
    exact executeRest_IA_none f o t hos hoid

/-- Witness for `filter_buffer_device_mismatch_rejected`: a color buffer from
device identity 2 against a filter on device identity 1 yields
`InvalidArgument` and the call cannot succeed. -/
theorem filter_buffer_device_mismatch_rejected_inst :
    (rtNoAux.filter_buffer ⟨3, 2, [0, 0, 0]⟩ ⟨3, 1, [0, 0, 0]⟩).1 =
      .error .invalidArgument ∧
    (rtNoAux.filter_buffer ⟨3, 2, [0, 0, 0]⟩ ⟨3, 1, [0, 0, 0]⟩).1 ≠ .ok () :=
  ⟨(filter_buffer_device_mismatch_rejected rtNoAux ⟨3, 2, [0, 0, 0]⟩
      ⟨3, 1, [0, 0, 0]⟩).2.2.1 (by decide) (by decide),
   ((filter_buffer_device_mismatch_rejected rtNoAux ⟨3, 2, [0, 0, 0]⟩
      ⟨3, 1, [0, 0, 0]⟩).1 (Or.inl (by decide))).1⟩
